import Mathlib

/-!
Verification of the automaton-auditor evaluation pipeline.

This file shallowly embeds the parts of the source relevant to the frozen
claims: the synthesis engine (`src/src/agents/justice/chief_justice.py`),
the shared-state reducers (`src/src/core/state.py`), the judge response
pipeline (`src/src/agents/judges/base_judge.py`), the safe-node wrapper
(`src/src/core/graph.py`) and the security validator
(`src/src/utils/validators.py`).

Python floats that only ever hold small dyadic or tiny-error values are
modelled as exact rationals: the synthesis weights 0.25/0.5 are exact in
binary, and the 0.4/0.2 blend is never within 1e-14 of a rounding
boundary for scores in [1,5], so `round` agrees with the exact rational
computation.  Python `round` uses banker's rounding (half to even),
modelled by `pythonRound`.  Pydantic validation (which raises on bad
field values) is modelled by checked constructors returning `Except`.
-/

/-- Python `round` on rationals: round half to even (banker's rounding). -/
def pythonRound (q : ℚ) : ℤ :=
  let f : ℤ := ⌊q⌋
  let r : ℚ := q - f
  if r < 1/2 then f
  else if 1/2 < r then f + 1
  else if f % 2 = 0 then f else f + 1

/-- ASCII lowercase of a string, modelling Python `str.lower` on the ASCII
strings used throughout the source. -/
def pyLower (s : String) : String :=
  String.mk (s.data.map Char.toLower)

/-- Membership of `n` as a contiguous substring of `h`, over char lists. -/
def containsSub (h n : List Char) : Bool :=
  match h with
  | [] => n.isEmpty
  | _ :: t =>
    if n.isPrefixOf h then true else containsSub t n

/-- Python `needle in haystack` on strings. -/
def strContainsB (haystack needle : String) : Bool :=
  containsSub haystack.data needle.data

/-- Judge personas, the `Literal["Prosecutor", "Defense", "TechLead"]` of
`src/src/core/state.py`. -/
inductive Judge where
  | Prosecutor
  | Defense
  | TechLead
deriving DecidableEq, BEq, Repr

/-- `Evidence` record from `src/src/core/state.py` (field names kept). -/
structure Evidence where
  found : Bool
  content : Option String
  location : String
  confidence : ℚ
  detective_name : String
  timestamp : Option String := none
deriving DecidableEq, BEq, Repr

/-- Pydantic construction of `Evidence`: `confidence` carries
`Field(ge=0.0, le=1.0)`, so out-of-range values raise a validation error;
no other field is constrained (in particular `location` may be empty). -/
def mkEvidence (found : Bool) (content : Option String) (location : String)
    (confidence : ℚ) (detective_name : String) (timestamp : Option String) :
    Except String Evidence :=
  if 0 ≤ confidence ∧ confidence ≤ 1 then
    .ok ⟨found, content, location, confidence, detective_name, timestamp⟩
  else
    .error ("1 validation error for Evidence: confidence not in [0.0, 1.0]")

/-- `JudicialOpinion` record from `src/src/core/state.py`: `score` carries
`Field(ge=1, le=5)`; `argument` is an unconstrained `str`. -/
structure JudicialOpinion where
  judge : Judge
  criterion_id : String
  score : ℤ
  argument : String
  cited_evidence : List String
  timestamp : Option String := none
deriving DecidableEq, BEq, Repr

/-- Pydantic construction of `JudicialOpinion`: validates only the score
range (the model puts no minimum length on `argument`). -/
def mkJudicialOpinion (judge : Judge) (criterion_id : String) (score : ℤ)
    (argument : String) (cited_evidence : List String) :
    Except String JudicialOpinion :=
  if 1 ≤ score ∧ score ≤ 5 then
    .ok ⟨judge, criterion_id, score, argument, cited_evidence, none⟩
  else
    .error ("1 validation error for JudicialOpinion: score not in [1, 5]")

/-- The `evidences` field of `AgentState` is a
`Dict[str, List[Evidence]]`; modelled as an insertion-ordered
association list, like a Python dict. -/
abbrev EvidenceDict := List (String × List Evidence)

/-- Python `d1 | d2` / `operator.ior` on dicts, the reducer annotated on
`AgentState.evidences`: keys of `d1` keep their position with values
updated from `d2` where present, and keys only in `d2` are appended in
`d2`'s order.  A key present in both takes `d2`'s value (replacement). -/
def pyDictMerge {α : Type} (d1 d2 : List (String × α)) : List (String × α) :=
  (d1.map (fun kv =>
    match d2.lookup kv.1 with
    | some v => (kv.1, v)
    | none => kv))
  ++ d2.filter (fun kv => (d1.lookup kv.1).isNone)

/-- Truthiness of `synthesis_rules.get(key)` in Python: present and a
non-empty string. -/
def truthyRule (rules : List (String × String)) (key : String) : Bool :=
  match rules.lookup key with
  | some v => v ≠ ""
  | none => false

/-- The Rule-of-Security condition of `ChiefJustice._resolve_criterion`
(lines 142-144): the Prosecutor's score (first Prosecutor opinion, 3 if
absent) is 1 and the word `security` occurs in that opinion's lowercased
argument. -/
def securityOverrideFires (opinions : List JudicialOpinion) : Bool :=
  (((opinions.find? (fun o => o.judge == Judge.Prosecutor)).map
      (fun o => o.score)).getD 3 == 1)
  && (match opinions.find? (fun o => o.judge == Judge.Prosecutor) with
      | some o => strContainsB (pyLower o.argument) ("security")
      | none => false)

/-- `ChiefJustice._resolve_criterion` from
`src/src/agents/justice/chief_justice.py` (lines 108-215), ported
clause by clause.  Returns `(final_score, synthesis_note)`. -/
def resolveCriterion (criterionId : String) (opinions : List JudicialOpinion)
    (synthesisRules : List (String × String)) (missingArtifact : Bool) :
    ℤ × String :=
  if opinions.isEmpty then
    (3, criterionId ++ ": No opinions provided (defaulting to 3)")
  else
    let prosecutorScore : ℤ :=
      ((opinions.find? (fun o => o.judge == Judge.Prosecutor)).map
        (fun o => o.score)).getD 3
    let defenseScore : ℤ :=
      ((opinions.find? (fun o => o.judge == Judge.Defense)).map
        (fun o => o.score)).getD 3
    let techLeadScore : ℤ :=
      ((opinions.find? (fun o => o.judge == Judge.TechLead)).map
        (fun o => o.score)).getD 3
    if securityOverrideFires opinions then
      (min (prosecutorScore + 2) 3,
        criterionId ++ ": Security flaw detected by Prosecutor. Score capped at 3 per synthesis rules.")
    else
      let maxScore := max prosecutorScore (max defenseScore techLeadScore)
      let minScore := min prosecutorScore (min defenseScore techLeadScore)
      let variance := maxScore - minScore
      let missingCap : ℤ :=
        if missingArtifact && truthyRule synthesisRules ("missing_vision_cap")
        then min 5 4 else 5
      let (score0, note0) : ℤ × String :=
        if variance > 2 then
          let weightedScore :=
            pythonRound ((prosecutorScore : ℚ) * 0.4
              + (defenseScore : ℚ) * 0.2 + (techLeadScore : ℚ) * 0.4)
          if prosecutorScore ≤ 2 then
            (min weightedScore 3,
              criterionId ++ ": High variance detected (" ++ toString minScore
                ++ "-" ++ toString maxScore
                ++ "). Prosecutor raised severe concerns (score: "
                ++ toString prosecutorScore
                ++ "); applying conservative cap -> "
                ++ toString (min weightedScore 3) ++ ".")
          else
            (weightedScore,
              criterionId ++ ": High variance detected (" ++ toString minScore
                ++ "-" ++ toString maxScore
                ++ "). Balanced weighted synthesis (Prosecutor/TechLead 40%, Defense 20%) = "
                ++ toString weightedScore ++ ".")
        else
          let finalScore :=
            pythonRound ((prosecutorScore : ℚ) * 0.25
              + (defenseScore : ℚ) * 0.25 + (techLeadScore : ℚ) * 0.5)
          (finalScore,
            criterionId
              ++ ": Moderate agreement. Weighted synthesis (TechLead 50%, others 25% each) = "
              ++ toString finalScore)
      let clamped := max 1 (min missingCap score0)
      if variance > 2
          && truthyRule synthesisRules ("high_variance_missing_evidence")
          && missingArtifact then
        (min clamped 3,
          note0 ++ " Missing evidence for target artifact; capped at 3.")
      else
        (clamped, note0)

/-! ### String utilities shared by the judge pipeline -/

/-- Python regex `\w` on the ASCII strings in play: alphanumeric or `_`. -/
def isWordChar (c : Char) : Bool :=
  c.isAlphanum || c == '_'

/-- Python regex `\s` (ASCII portion): space, tab, newline, CR, FF, VT. -/
def isSpaceChar (c : Char) : Bool :=
  c == ' ' || c == '\t' || c == '\n' || c == '\r' || c == '\x0b' || c == '\x0c'

/-- Character class of the token and path regexes: alphanumeric, `_`,
dot, slash or dash. -/
def isTokenChar (c : Char) : Bool :=
  c.isAlphanum || c == '_' || c == '.' || c == '/' || c == '-'

/-- Python `str.strip()` (whitespace at both ends). -/
def pyStrip (s : String) : String :=
  String.mk (((s.data.dropWhile isSpaceChar).reverse.dropWhile isSpaceChar).reverse)

/-- Whether `p` is a prefix of `l` (over chars, executable). -/
def leadsWith : List Char → List Char → Bool
  | [], _ => true
  | _ :: _, [] => false
  | p :: ps, c :: cs => p == c && leadsWith ps cs

/-- Python `str.startswith`. -/
def pyStartsWith (s p : String) : Bool :=
  leadsWith p.data s.data

/-- Python `str.endswith`. -/
def pyEndsWith (s p : String) : Bool :=
  leadsWith p.data.reverse s.data.reverse

/-- Python `str.replace(pat, repl)`: all non-overlapping occurrences,
left to right (`pat` non-empty at every call site). -/
def replaceAllGo (pat repl : List Char) : ℕ → List Char → List Char
  | 0, s => s
  | _ + 1, [] => []
  | fuel + 1, c :: cs =>
    if pat.length ≠ 0 && leadsWith pat (c :: cs) then
      repl ++ replaceAllGo pat repl fuel ((c :: cs).drop pat.length)
    else
      c :: replaceAllGo pat repl fuel cs

/-- Python `str.replace` on strings.  The fuel argument (one unit per
consumed character; a match consumes at least one) makes the recursion
structural; `s.length` fuel always suffices. -/
def pyReplace (s pat repl : String) : String :=
  String.mk (replaceAllGo pat.data repl.data s.data.length s.data)

/-- Index of the first occurrence of `pat` in `s`, if any. -/
def findSubIdx (s pat : List Char) : Option Nat :=
  match s with
  | [] => if pat.isEmpty then some 0 else none
  | _ :: cs =>
    if leadsWith pat s then some 0
    else (findSubIdx cs pat).map (· + 1)

/-! ### Retry loop (`BaseJudge._invoke_with_rate_limit_retry`) -/

/-- `BaseJudge._is_rate_limit_error`: marker-substring classification of a
provider exception message. -/
def isRateLimitErrorMsg (message : String) : Bool :=
  [("429" : String), "rate_limit_exceeded", "Rate limit reached",
    "tokens per minute", "insufficient_quota"].any
    (fun marker => strContainsB message marker)

/-- `delay = min(max_delay, base_delay * (2**attempt))` from the retry loop. -/
def retryDelay (baseDelay maxDelay : ℚ) (attempt : ℕ) : ℚ :=
  min maxDelay (baseDelay * 2 ^ attempt)

/-- Upper bound of the uniform jitter drawn before sleeping:
`random.uniform(0.0, min(0.5, delay * 0.25))`. -/
def retryJitterBound (baseDelay maxDelay : ℚ) (attempt : ℕ) : ℚ :=
  min (1/2) (retryDelay baseDelay maxDelay attempt * 0.25)

/-- One run of the retry loop.  `invoke k` is the outcome of the `k`-th
provider call (exception message or value); `remaining` counts the
attempts left after the current one (`attempt == attempts - 1` in the
source is `remaining == 0` here).  On success it reports the value, the
number of retries performed so far and the `(delay, jitter upper bound)`
of every sleep, oldest first. -/
def retryLoopGo {α : Type} (invoke : ℕ → Except String α)
    (baseDelay maxDelay : ℚ) : ℕ → ℕ → List (ℚ × ℚ) →
    Except String (α × ℕ × List (ℚ × ℚ))
  | 0, attempt, sleeps =>
    match invoke attempt with
    | .ok v => .ok (v, attempt, sleeps.reverse)
    | .error e => .error e
  | remaining + 1, attempt, sleeps =>
    match invoke attempt with
    | .ok v => .ok (v, attempt, sleeps.reverse)
    | .error e =>
      if isRateLimitErrorMsg e = false then .error e
      else
        retryLoopGo invoke baseDelay maxDelay remaining (attempt + 1)
          ((retryDelay baseDelay maxDelay attempt,
            retryJitterBound baseDelay maxDelay attempt) :: sleeps)

/-- `BaseJudge._invoke_with_rate_limit_retry`: `attempts = max(1,
config.max_retries)`, starting at attempt 0 with no sleeps recorded. -/
def invokeWithRateLimitRetry {α : Type} (invoke : ℕ → Except String α)
    (maxRetries : ℕ) (baseDelay maxDelay : ℚ) :
    Except String (α × ℕ × List (ℚ × ℚ)) :=
  retryLoopGo invoke baseDelay maxDelay (max 1 maxRetries - 1) 0 []

/-- Defaults from `src/src/core/config.py`: `MAX_RETRIES`. -/
def defaultMaxRetries : ℕ := 3

/-- Default `LLM_RETRY_BASE_DELAY_SECONDS`. -/
def defaultRetryBaseDelay : ℚ := 1

/-- Default `LLM_RETRY_MAX_DELAY_SECONDS`. -/
def defaultRetryMaxDelay : ℚ := 8

/-! ### Safe-node wrapper (`src/src/core/graph.py`) and the security
validator (`src/src/utils/validators.py`) -/

/-- Exception values raised inside graph nodes, mirroring the class
hierarchy of `src/src/utils/exceptions.py` as far as the claims need:
`PathTraversalError` and `CommandInjectionError` are subclasses of
`SecurityViolationError`. -/
inductive PyExc where
  | validationError (msg : String)
  | securityViolationError (msg : String)
  | pathTraversalError (msg : String)
  | commandInjectionError (msg : String)
  | otherError (msg : String)
deriving DecidableEq, Repr

/-- `isinstance(exc, SecurityViolationError)`, subclasses included. -/
def PyExc.isSecurityViolation : PyExc → Bool
  | .securityViolationError _ => true
  | .pathTraversalError _ => true
  | .commandInjectionError _ => true
  | _ => false

/-- Python `str(exc)` for these exception classes (the constructor
message). -/
def PyExc.message : PyExc → String
  | .validationError m => m
  | .securityViolationError m => m
  | .pathTraversalError m => m
  | .commandInjectionError m => m
  | .otherError m => m

/-- A node's partial state update (the dictionaries returned by graph
nodes); fields default to absent/empty like missing dict keys. -/
structure StateUpdate where
  evidences : EvidenceDict := []
  opinions : List JudicialOpinion := []
  errors : List String := []
  aggregated_evidence : Option String := none
  final_scores : List (String × ℤ) := []
  synthesis_summary : Option String := none
  final_report : Option String := none
deriving DecidableEq, Repr

/-- `_safe_node` from `src/src/core/graph.py`: wraps a node function so
that, in resilient mode (`failFast = false`), any exception is converted
into the node's pre-declared empty update plus an `errors` entry
`"<node>: <message>"`; in fail-fast mode the exception re-raises.  The
`except Exception` clause catches every exception class, security
violations included. -/
def safeNode {σ : Type} (failFast : Bool)
    (nodeFn : σ → Except PyExc StateUpdate) (nodeName : String)
    (emptyUpdates : StateUpdate) : σ → Except PyExc StateUpdate :=
  fun state =>
    match nodeFn state with
    | .ok updates => .ok updates
    | .error exc =>
      if failFast then .error exc
      else .ok { emptyUpdates with
                  errors := [nodeName ++ ": " ++ exc.message] }

/-- `SecurityValidator.ALLOWED_GIT_DOMAINS`. -/
def allowedGitDomains : List String :=
  [("github.com" : String), "gitlab.com", "bitbucket.org"]

/-- `SecurityValidator.SHELL_METACHARACTERS` (the backquote written via
its code point). -/
def shellMetacharacters : List Char :=
  [';', '&', '|', Char.ofNat 96, '$', '<', '>', '\n', '\r']

/-- Python `str(list_of_strings)`, used in the disallowed-domain message. -/
def pyStrListRepr (l : List String) : String :=
  "[" ++ String.intercalate ", " (l.map (fun d => "'" ++ d ++ "'")) ++ "]"

/-- `SecurityValidator.validate_git_url` from
`src/src/utils/validators.py` (lines 43-88).  URL parsing itself is the
stdlib `urlparse`, treated as an external collaborator: the function
receives the parsed `scheme` and `netloc` alongside the raw `url`. -/
def validateGitUrl (scheme netloc url : String) : Except PyExc String :=
  if url = "" then
    .error (.validationError ("URL must be a non-empty string"))
  else if !(scheme ∈ [("https" : String), "http", "git"]) then
    .error (.securityViolationError ("Unsupported URL scheme: " ++ scheme))
  else if !(netloc ∈ allowedGitDomains) then
    .error (.securityViolationError
      ("Domain '" ++ netloc ++ "' not in allowed list: "
        ++ pyStrListRepr allowedGitDomains))
  else
    match shellMetacharacters.find? (fun c => containsSub url.data [c]) with
    | some c =>
      .error (.commandInjectionError
        ("Suspicious character '" ++ String.mk [c] ++ "' found in URL"))
    | none => .ok url

/-! ### A small regex interpreter for the phrase tables of the grounding
filter.  Every star/plus in the source's patterns ranges over a single
character class, so the AST restricts iteration to character classes and
the matcher stays structurally recursive. -/

/-- Regular-expression AST: empty, literal char, character class, word
boundary, sequencing, ordered alternation, and class iteration. -/
inductive RE where
  | emp : RE
  | chr (c : Char) : RE
  | cls (p : Char → Bool) : RE
  | seq (a b : RE) : RE
  | alt (a b : RE) : RE
  | star (p : Char → Bool) : RE
  | wb : RE

/-- Python regex `\b`: a word/non-word transition between the previous
character and the next one (text edges count as non-word). -/
def wordBoundary (prev : Option Char) (s : List Char) : Bool :=
  let pw := match prev with
    | some c => isWordChar c
    | none => false
  let nw := match s with
    | c :: _ => isWordChar c
    | [] => false
  pw != nw

/-- All ways a class star can consume a prefix of `s` (0 or more class
characters), with the resulting previous-character context. -/
def starSuffixes (p : Char → Bool) : Option Char → List Char →
    List (Option Char × List Char)
  | prev, [] => [(prev, [])]
  | prev, c :: cs =>
    (prev, c :: cs) :: (if p c then starSuffixes p (some c) cs else [])

/-- All (previous char, remaining input) states reachable by matching `r`
at the head of `s` with previous character `prev`. -/
def REderiv : RE → Option Char → List Char → List (Option Char × List Char)
  | .emp, prev, s => [(prev, s)]
  | .chr _, _, [] => []
  | .chr c, _, x :: xs => if x == c then [(some x, xs)] else []
  | .cls _, _, [] => []
  | .cls p, _, x :: xs => if p x then [(some x, xs)] else []
  | .seq a b, prev, s =>
    (REderiv a prev s).flatMap (fun st => REderiv b st.1 st.2)
  | .alt a b, prev, s => REderiv a prev s ++ REderiv b prev s
  | .star p, prev, s => starSuffixes p prev s
  | .wb, prev, s => if wordBoundary prev s then [(prev, s)] else []

/-- Python `re.search(r, s)` truthiness: some match starts at some
position of `s` (with correct boundary context threading). -/
def searchFrom (r : RE) : Option Char → List Char → Bool
  | prev, [] => !(REderiv r prev []).isEmpty
  | prev, c :: cs =>
    !(REderiv r prev (c :: cs)).isEmpty || searchFrom r (some c) cs

/-- Search anywhere in a string. -/
def searchRE (r : RE) (s : List Char) : Bool :=
  searchFrom r none s

/-- Literal string as a regex. -/
def reLit (s : String) : RE :=
  (s.data.map RE.chr).foldr RE.seq RE.emp

/-- Sequence of regexes. -/
def reCat (l : List RE) : RE :=
  l.foldr RE.seq RE.emp

/-- Ordered alternation of a non-empty list. -/
def reAlts : List RE → RE
  | [] => RE.emp
  | r :: rs => rs.foldl RE.alt r

/-- One-or-more of a character class. -/
def rePlus (p : Char → Bool) : RE :=
  RE.seq (RE.cls p) (RE.star p)

/-- Optional regex, `(?:r)?`. -/
def reOpt (r : RE) : RE :=
  RE.alt r RE.emp

/-- Python `.` without DOTALL: any character except newline. -/
def reDotStar : RE :=
  RE.star (fun c => c != '\n')

/-- Regex `\d` repeated one to three times. -/
def reDigits13 : RE :=
  reAlts [RE.cls Char.isDigit,
    reCat [RE.cls Char.isDigit, RE.cls Char.isDigit],
    reCat [RE.cls Char.isDigit, RE.cls Char.isDigit, RE.cls Char.isDigit]]

/-! ### Grounding helpers (`BaseJudge`, lines 610-1120) -/

/-- `BaseJudge._is_high_risk_claim` pattern `\b\d{1,3}%\b`. -/
def highRiskPercent : RE :=
  reCat [RE.wb, reDigits13, RE.chr '%', RE.wb]

/-- `BaseJudge._is_high_risk_claim` pattern `\b\d+\s*(?:times|x)\b`. -/
def highRiskMultiplier : RE :=
  reCat [RE.wb, rePlus Char.isDigit, RE.star isSpaceChar,
    reAlts [reLit ("times"), reLit ("x")], RE.wb]

/-- `BaseJudge._is_high_risk_claim` absolute-qualifier pattern. -/
def highRiskAbsolute : RE :=
  reCat [RE.wb,
    reAlts [reLit ("always"), reLit ("never"), reLit ("purely"),
      reLit ("only"), reLit ("all"), reLit ("none"), reLit ("no evidence")],
    RE.wb]

/-- `BaseJudge._is_high_risk_claim`: the three searches run with
`re.IGNORECASE`, modelled by lowercasing the sentence first (the patterns
are ASCII). -/
def isHighRiskClaim (sentence : String) : Bool :=
  [highRiskPercent, highRiskMultiplier, highRiskAbsolute].any
    (fun r => searchRE r (pyLower sentence).data)

/-- Sentence boundary split `re.split` with pattern: whitespace run
preceded by `.`, `!` or `?`.  The continuation context after a split only
needs to know the previous character is not punctuation, recorded here as
a space. -/
def splitSentencesGo : ℕ → Option Char → List Char → List Char →
    List (List Char)
  | 0, _, acc, rest => [(acc.reverse) ++ rest]
  | _ + 1, _, acc, [] => [acc.reverse]
  | fuel + 1, prev, acc, c :: cs =>
    if isSpaceChar c &&
        (prev == some '.' || prev == some '!' || prev == some '?') then
      acc.reverse ::
        splitSentencesGo fuel (some ' ') [] (cs.dropWhile isSpaceChar)
    else
      splitSentencesGo fuel (some c) (c :: acc) cs

/-- Python `re.split(r"(?<=[.!?])\s+", text)`; fuel `s.length` always
suffices since every step consumes at least one character. -/
def splitSentencesL (s : List Char) : List (List Char) :=
  splitSentencesGo s.length none [] s

/-- Python `re.findall(r"[A-Za-z][A-Za-z0-9_. slash dash]{3,}", s)`:
non-overlapping maximal token-character runs of length at least four that
start with a letter. -/
def findTokensGo : ℕ → List Char → List (List Char)
  | 0, _ => []
  | _ + 1, [] => []
  | fuel + 1, c :: cs =>
    if c.isAlpha then
      let run := cs.takeWhile isTokenChar
      if run.length ≥ 3 then
        (c :: run) :: findTokensGo fuel (cs.drop run.length)
      else
        findTokensGo fuel cs
    else
      findTokensGo fuel cs

/-- Entry point with sufficient fuel (every step consumes a character). -/
def findTokensL (s : List Char) : List (List Char) :=
  findTokensGo s.length s

/-- `BaseJudge._normalize_location`: `str(value or "").strip().lower()`
with backslashes turned into slashes. -/
def normalizeLocation (value : String) : String :=
  pyReplace (pyLower (pyStrip value)) ("\\") ("/")

/-- `BaseJudge._compact_location`: empty becomes `N/A`; otherwise slashes
are normalized, a `/repo/` sandbox prefix is removed, and long locations
keep their last 90 characters. -/
def compactLocation (location : String) : String :=
  if location = "" then "N/A"
  else
    let normalized := pyReplace location ("\\") ("/")
    match findSubIdx normalized.data ("/repo/").data with
    | some i => String.mk (normalized.data.drop (i + 6))
    | none =>
      if normalized.length > 90 then
        String.mk (normalized.data.drop (normalized.length - 90))
      else normalized

/-- Ordered insertion for lexicographically sorting strings. -/
def insertString (x : String) : List String → List String
  | [] => [x]
  | y :: ys => if x ≤ y then x :: y :: ys else y :: insertString x ys

/-- Python `sorted` on a list of strings. -/
def sortStrings (l : List String) : List String :=
  l.foldr insertString []

/-- `BaseJudge._collect_allowed_locations`: the sorted set of normalized
and normalized-compact evidence locations, empties excluded. -/
def collectAllowedLocations (evidences : EvidenceDict) : List String :=
  let locations := evidences.foldl (fun acc kv =>
    kv.2.foldl (fun acc ev =>
      let location := normalizeLocation ev.location
      let acc :=
        if location ≠ "" && !acc.contains location
        then acc ++ [location] else acc
      let compact := normalizeLocation (compactLocation ev.location)
      if compact ≠ "" && !acc.contains compact
      then acc ++ [compact] else acc) acc) ([] : List String)
  sortStrings locations

/-- `BaseJudge._collect_evidence_tokens`: token set over
`"{location} {content}"` lowercased, keeping tokens that begin with
`src/`, `http` or `c:/` or have length at least six. -/
def collectEvidenceTokens (evidences : EvidenceDict) : List (List Char) :=
  evidences.foldl (fun acc kv =>
    kv.2.foldl (fun acc ev =>
      let text := pyLower (ev.location ++ " " ++ ev.content.getD "")
      (findTokensL text.data).foldl (fun acc tok =>
        if (leadsWith ("src/").data tok || leadsWith ("http").data tok
              || leadsWith ("c:/").data tok || tok.length ≥ 6)
            && !acc.contains tok
        then acc ++ [tok] else acc) acc) acc) []

/-- `BaseJudge._sentence_has_evidence_anchor`: the normalized sentence
contains a known location, or shares at least two distinct tokens with
the evidence token set. -/
def sentenceHasEvidenceAnchor (sentence : String)
    (evidenceTokens : List (List Char)) (allowedLocations : List String) :
    Bool :=
  let normalizedSentence := normalizeLocation sentence
  if allowedLocations.any (fun loc => strContainsB normalizedSentence loc)
  then true
  else
    let sentenceTokens := (findTokensL normalizedSentence.data).eraseDups
    (sentenceTokens.filter (fun t => evidenceTokens.contains t)).length ≥ 2

/-- `BaseJudge._prune_unverified_claim_sentences`: drop non-empty
high-risk sentences with no evidence anchor, rejoin with single spaces,
fall back to a fixed sentence when everything was removed.  Returns the
cleaned argument and the number of removed sentences. -/
def pruneUnverifiedClaimSentences (argument : String)
    (evidences : EvidenceDict) (allowedLocations : List String) :
    String × ℕ :=
  let sentences := splitSentencesL (pyStrip argument).data
  if sentences.isEmpty then (argument, 0)
  else
    let evidenceTokens := collectEvidenceTokens evidences
    let step := sentences.foldl
      (fun (acc : List (List Char) × ℕ) sentence =>
        if sentence.isEmpty then acc
        else if isHighRiskClaim (String.mk sentence)
            && !sentenceHasEvidenceAnchor (String.mk sentence)
                  evidenceTokens allowedLocations then
          (acc.1, acc.2 + 1)
        else (acc.1 ++ [sentence], acc.2)) ([], 0)
    let cleaned := pyStrip (String.mk (List.intercalate ([' ']) step.1))
    if cleaned = "" then
      ("Opinion retained only where verifiable evidence exists.", step.2)
    else (cleaned, step.2)

/-- `BaseJudge._build_evidence_text`: found evidence flattened into one
normalized blob of `"{location} {content}"` parts joined by spaces. -/
def buildEvidenceText (evidences : EvidenceDict) : String :=
  let parts := evidences.foldl (fun acc kv =>
    kv.2.foldl (fun acc ev =>
      if !ev.found then acc
      else acc ++ [ev.location ++ " " ++ ev.content.getD ""]) acc)
    ([] : List String)
  normalizeLocation (String.intercalate " " parts)

/-- `BaseJudge._has_sandbox_evidence` term list. -/
def hasSandboxEvidence (evidenceText : String) : Bool :=
  [("sandboxed_git_clone" : String), "repositorysandbox.clone_repository",
    "src/tools/git_tools.py", "without raw os.system"].any
    (fun term => strContainsB evidenceText term)

/-- `BaseJudge._has_parallel_graph_evidence`. -/
def hasParallelGraphEvidence (evidenceText : String) : Bool :=
  strContainsB evidenceText ("parallel detective fan-out")
    || strContainsB evidenceText ("parallel judge fan-out")
    || strContainsB evidenceText ("stategraph found with parallel architecture")
    || strContainsB evidenceText ("src/core/graph.py")

/-- `BaseJudge._has_distinct_persona_evidence`. -/
def hasDistinctPersonaEvidence (evidenceText : String) : Bool :=
  strContainsB evidenceText ("distinct judge prompts detected")
    || (strContainsB evidenceText ("trust no one")
        && strContainsB evidenceText ("reward effort")
        && strContainsB evidenceText ("does it actually work"))

/-- Sandbox-group contradiction patterns (searched against lowercased,
normalized sentences, so the literals are lowercase). -/
def sandboxContradictionPatterns : List RE :=
  [reCat [RE.wb, reLit ("fail"), RE.star isWordChar, rePlus isSpaceChar,
      reLit ("to"), rePlus isSpaceChar, reLit ("implement"),
      rePlus isSpaceChar, reLit ("sandbox"), reOpt (reLit ("ed")),
      rePlus isSpaceChar, reLit ("git"), RE.wb],
    reCat [RE.wb, reLit ("no mention of sandbox")],
    reCat [RE.wb, reLit ("lack"), reOpt (reLit ("s")), RE.wb, reDotStar,
      RE.wb, reLit ("sandbox")],
    reCat [RE.wb, reLit ("absence of explicit sandbox")],
    reCat [RE.wb, reLit ("no explicit sandbox")],
    reCat [RE.wb, reLit ("without"), RE.wb, reDotStar, RE.wb,
      reLit ("sandbox"), reOpt (reAlts [reLit ("ing"), reLit ("ed")]),
      RE.wb]]

/-- Parallel-graph-group contradiction patterns. -/
def parallelContradictionPatterns : List RE :=
  [reCat [RE.wb, reLit ("linear graph"), RE.wb],
    reCat [RE.wb, reLit ("no parallel"), RE.star isWordChar, RE.wb],
    reCat [RE.wb, reLit ("no code implements"), RE.wb, reDotStar, RE.wb,
      reAlts [reLit ("parallel"), reLit ("fan-out"), reLit ("fan-in")],
      RE.wb],
    reCat [RE.wb, reLit ("no proof of"), RE.wb, reDotStar, RE.wb,
      reLit ("parallel"),
      reOpt (reAlts [reLit ("ism"), reLit (" judges"), reLit (" execution")]),
      RE.wb],
    reCat [RE.wb, reLit ("parallel"),
      reOpt (reAlts [reLit ("ism"), reLit (" judges")]), RE.wb, reDotStar,
      RE.wb, reLit ("remains unverified"), RE.wb]]

/-- Persona-group contradiction patterns. -/
def personaContradictionPatterns : List RE :=
  [reCat [RE.wb, reLit ("shared"), rePlus isSpaceChar, reDigits13,
      RE.chr '%', rePlus isSpaceChar, reLit ("identical prompt"), RE.wb],
    reCat [RE.wb, reLit ("persona collusion"), RE.wb],
    reCat [RE.wb, reLit ("lack of distinct judicial logic"), RE.wb]]

/-- `BaseJudge._remove_contradicted_claim_sentences`: with the pattern
groups activated by the evidence text, drop every sentence whose
normalization matches one, rejoin, and fall back to the fixed sentence
when everything was removed. -/
def removeContradictedClaimSentences (argument : String)
    (evidences : EvidenceDict) : String × ℕ :=
  let sentences := splitSentencesL (pyStrip argument).data
  if sentences.isEmpty then (argument, 0)
  else
    let evidenceText := buildEvidenceText evidences
    let activePatterns :=
      (if hasSandboxEvidence evidenceText
       then sandboxContradictionPatterns else [])
      ++ (if hasParallelGraphEvidence evidenceText
          then parallelContradictionPatterns else [])
      ++ (if hasDistinctPersonaEvidence evidenceText
          then personaContradictionPatterns else [])
    if activePatterns.isEmpty then (argument, 0)
    else
      let step := sentences.foldl
        (fun (acc : List (List Char) × ℕ) sentence =>
          let normalized := normalizeLocation (String.mk sentence)
          if activePatterns.any (fun p => searchRE p normalized.data) then
            (acc.1, acc.2 + 1)
          else (acc.1 ++ [sentence], acc.2)) ([], 0)
      let cleaned := pyStrip (String.mk (List.intercalate ([' ']) step.1))
      if cleaned = "" then
        ("Opinion retained only where verifiable evidence exists.", step.2)
      else (cleaned, step.2)

/-- The legacy-path alias table of `BaseJudge._is_location_supported`. -/
def locationAliasMap : List (String × String) :=
  [(("src/state.py" : String), ("src/core/state.py" : String)),
    (("src/graph.py" : String), ("src/core/graph.py" : String))]

/-- `BaseJudge._is_location_supported`: exact match, substring of a known
location, known location ending with the path, or the same checks for a
legacy alias. -/
def isLocationSupported (normalizedPath : String)
    (allowedLocations : List String) : Bool :=
  allowedLocations.any (fun loc =>
    normalizedPath == loc || strContainsB loc normalizedPath
      || pyEndsWith loc normalizedPath)
  || (match locationAliasMap.lookup normalizedPath with
      | some al =>
        allowedLocations.any (fun loc =>
          al == loc || strContainsB loc al || pyEndsWith loc al)
      | none => false)

/-- Python `s.rsplit("/", 1)[-1]`: the segment after the last slash. -/
def lastSegmentAfterSlash (s : String) : String :=
  String.mk ((s.data.reverse.takeWhile (fun c => c != '/')).reverse)

/-- `BaseJudge._is_citation_verified`: normalized citation must be
non-empty, not end with a slash, look like a file or an http reference,
and be supported by a known location. -/
def isCitationVerified (citation : String)
    (allowedLocations : List String) : Bool :=
  let normalizedCitation := normalizeLocation citation
  if normalizedCitation = "" then false
  else if pyEndsWith normalizedCitation ("/") then false
  else if strContainsB normalizedCitation ("/")
      && !strContainsB (lastSegmentAfterSlash normalizedCitation) (".")
      && !pyStartsWith normalizedCitation ("http") then false
  else isLocationSupported normalizedCitation allowedLocations

/-- Stable descending insertion by confidence (Python `sorted` with
`reverse=True` is stable). -/
def insertByConfidence (x : Evidence) : List Evidence → List Evidence
  | [] => [x]
  | y :: ys =>
    if y.confidence < x.confidence then x :: y :: ys
    else y :: insertByConfidence x ys

/-- Python `sorted(evs, key=confidence, reverse=True)`. -/
def sortByConfidenceDesc (l : List Evidence) : List Evidence :=
  l.foldl (fun acc x => insertByConfidence x acc) []

/-- `BaseJudge._fallback_citations`: compact locations of the top-three
evidence items by confidence, or the sentinel citation. -/
def fallbackCitations (evidences : EvidenceDict) : List String :=
  let ranked := evidences.foldl (fun acc kv => acc ++ kv.2)
    ([] : List Evidence)
  let ranked := sortByConfidenceDesc ranked
  let fallback := (ranked.take 3).filterMap (fun ev =>
    if ev.location ≠ "" then some (compactLocation ev.location) else none)
  if fallback.isEmpty then [("insufficient_verified_evidence")] else fallback

/-- The five path-regex alternatives, lowercase (matching is
case-insensitive). -/
def pathPrefixes : List (List Char) :=
  [("src/").data, ("lib/").data, ("app/").data, ("tools/").data,
    ("agents/").data]

/-- Case-insensitive prefix test against lowercase pattern chars. -/
def leadsWithCI : List Char → List Char → Bool
  | [], _ => true
  | _ :: _, [] => false
  | p :: ps, c :: cs => p == c.toLower && leadsWithCI ps cs

/-- Backtracking for the trailing word boundary of the path regex: the
largest end `k` within the greedy token run such that a word boundary
separates the last matched character from what follows.  Returns the
chosen run length. -/
def chooseRunEndGo (run afterRun : List Char) : ℕ → Option ℕ
  | 0 => none
  | k + 1 =>
    match run.get? k with
    | none => chooseRunEndGo run afterRun k
    | some lastC =>
      let nextC := if k + 1 < run.length then run.get? (k + 1)
                   else afterRun.head?
      if isWordChar lastC != ((nextC.map isWordChar).getD false) then
        some (k + 1)
      else chooseRunEndGo run afterRun k

/-- Entry point for the trailing-boundary backtracking. -/
def chooseRunEnd (run afterRun : List Char) : Option ℕ :=
  chooseRunEndGo run afterRun run.length

/-- Scanner for `re.finditer` of the path pattern: word boundary, one of
the five directory literals, then a maximal token-character run shrunk
until the trailing boundary holds; matches are non-overlapping and the
scan resumes after each match.  Every successful match is at least five
characters long, so `max 1` below only makes termination evident. -/
def findPathMatchesGo : ℕ → Option Char → List Char → List (List Char)
  | 0, _, _ => []
  | _ + 1, _, [] => []
  | fuel + 1, prev, c :: cs =>
    let rest := c :: cs
    let startOk := match prev with
      | none => true
      | some pc => !isWordChar pc
    let attempt : Option (List Char) :=
      if startOk then
        match pathPrefixes.find? (fun p => leadsWithCI p rest) with
        | some p =>
          let afterPrefix := rest.drop p.length
          let run := afterPrefix.takeWhile isTokenChar
          let afterRun := afterPrefix.drop run.length
          match chooseRunEnd run afterRun with
          | some k => some (rest.take (p.length + k))
          | none => none
        | none => none
      else none
    match attempt with
    | some matched =>
      matched ::
        findPathMatchesGo fuel matched.getLast?
          (rest.drop (max 1 matched.length))
    | none => findPathMatchesGo fuel (some c) cs

/-- `BaseJudge._find_unverified_paths`: path-like references in the
argument that no known location supports. -/
def findUnverifiedPaths (argument : String)
    (allowedLocations : List String) : List String :=
  (findPathMatchesGo argument.data.length none argument.data).filterMap (fun m =>
    let referencedPath := String.mk m
    if isLocationSupported (normalizeLocation referencedPath)
        allowedLocations then none
    else some referencedPath)

/-- `StructuredOpinion` schema from
`src/src/agents/judges/base_judge.py`: `score` carries `ge=1, le=5` and
`argument` carries `min_length=100`. -/
structure StructuredOpinion where
  criterion_id : String
  score : ℤ
  argument : String
  cited_evidence : List String
deriving DecidableEq, BEq, Repr

/-- Pydantic construction of `StructuredOpinion`: raises on a score out
of [1,5] or an argument shorter than 100 characters; `cited_evidence` is
unconstrained (it may be empty). -/
def mkStructuredOpinion (criterion_id : String) (score : ℤ)
    (argument : String) (cited_evidence : List String) :
    Except String StructuredOpinion :=
  if score < 1 ∨ 5 < score then
    .error ("1 validation error for StructuredOpinion: score not in [1, 5]")
  else if argument.length < 100 then
    .error ("1 validation error for StructuredOpinion: argument shorter than 100 characters")
  else
    .ok ⟨criterion_id, score, argument, cited_evidence⟩

/-- The validity contract pydantic enforces at every `StructuredOpinion`
construction site, plus the non-empty-citations guard rail of the
coercion cascade. -/
def StructuredOpinion.Valid (s : StructuredOpinion) : Prop :=
  1 ≤ s.score ∧ s.score ≤ 5 ∧ 100 ≤ s.argument.length
    ∧ s.cited_evidence ≠ []

instance (s : StructuredOpinion) : Decidable s.Valid := by
  unfold StructuredOpinion.Valid
  infer_instance

/-- `BaseJudge._pad_argument`: append `pad.pad...` units until the
100-character minimum holds. -/
def padArgument (argument : String) : String :=
  if argument.length ≥ 100 then argument
  else
    argument ++ " "
      ++ String.intercalate "."
          (List.replicate ((100 - argument.length) / 4 + 1) ("pad"))

/-- The argument of the deterministic neutral fallback built when the
coerced payload fails validation. -/
def malformedFallbackArgument : String :=
  padArgument ("Model returned malformed opinion; defaulting to neutral score until a valid structured output is produced. This padding ensures minimum length is satisfied for validation and indicates the provider output was unusable.")

/-- A provider payload after the dictionary/JSON/type coercions of
`BaseJudge._coerce_structured_response` filled in all four keys. -/
structure ResponsePayload where
  criterion_id : String
  score : ℤ
  argument : String
  cited_evidence : List String
deriving DecidableEq, Repr

/-- Tail of `BaseJudge._coerce_structured_response` (lines 579-608): try
the pydantic construction, fall back to the deterministic neutral
opinion on validation failure, then apply the guard rails (score forced
into range, short argument padded, empty citations replaced by the
sentinel). -/
def coerceStructuredResponse (criterionId : String)
    (payload : ResponsePayload) : StructuredOpinion :=
  let structured :=
    match mkStructuredOpinion payload.criterion_id payload.score
        payload.argument payload.cited_evidence with
    | .ok s => s
    | .error _ =>
      ⟨criterionId, 3, malformedFallbackArgument, [("malformed_output")]⟩
  let structured :=
    if 1 ≤ structured.score ∧ structured.score ≤ 5 then structured
    else { structured with score := 3 }
  let structured :=
    if structured.argument.length < 100 then
      { structured with argument := structured.argument
          ++ " Additional verified evidence is required before stronger conclusions can be made." }
    else structured
  if structured.cited_evidence.isEmpty then
    { structured with cited_evidence := [("insufficient_verified_evidence")] }
  else structured

/-- The body of `BaseJudge._ground_opinion` after its early return
(lines 786-831), ported statement by statement; the final pydantic
construction is the checked `mkStructuredOpinion`, whose failure
propagates as an exception. -/
def groundOpinionMain (response : StructuredOpinion) (criterionId : String)
    (evidences : EvidenceDict) (allowedLocations : List String) :
    Except String StructuredOpinion :=
    let argument := response.argument
    let adjustedScore := response.score
    let unverifiedPaths := findUnverifiedPaths argument allowedLocations
    let argument := unverifiedPaths.foldl
      (fun a p => pyReplace a p ("[UNVERIFIED_PATH]")) argument
    let penalties : ℕ := if unverifiedPaths.isEmpty then 0 else 1
    let pruned := pruneUnverifiedClaimSentences argument evidences
      allowedLocations
    let argument := pruned.1
    let penalties := penalties + (if pruned.2 ≠ 0 then 1 else 0)
    let contradicted := removeContradictedClaimSentences argument evidences
    let argument := contradicted.1
    let adjustedScore :=
      if contradicted.2 ≠ 0 then min 5 (adjustedScore + 1) else adjustedScore
    let argument :=
      if contradicted.2 ≠ 0 then
        argument ++ " Claims contradicting verified evidence were removed."
      else argument
    let adjustedScore :=
      if penalties ≠ 0 then max 1 (adjustedScore - (penalties : ℤ))
      else adjustedScore
    let argument :=
      if penalties ≠ 0 then
        argument ++ " Unverified claims were removed from this opinion."
      else argument
    let argument :=
      if argument.length < 100 then
        argument
          ++ " Additional verified evidence is required before stronger conclusions can be made."
      else argument
    let filteredCitations := response.cited_evidence.filter
      (fun c => isCitationVerified c allowedLocations)
    let citations :=
      if filteredCitations.isEmpty then fallbackCitations evidences
      else filteredCitations
    mkStructuredOpinion criterionId adjustedScore argument citations

/-- `BaseJudge._ground_opinion` (lines 772-831): with no known evidence
locations the response is returned unchanged apart from the criterion
id; otherwise the main grounding body runs. -/
def groundOpinion (response : StructuredOpinion) (criterionId : String)
    (evidences : EvidenceDict) : Except String StructuredOpinion :=
  let allowedLocations := collectAllowedLocations evidences
  if allowedLocations.isEmpty then
    .ok { response with criterion_id := criterionId }
  else
    groundOpinionMain response criterionId evidences allowedLocations

/-- The body of `BaseJudge.render_opinion`'s `try` block after the
provider invocation: grounding followed by the validated
`JudicialOpinion` conversion.  `invokeResult` abstracts
`_invoke_with_fallback` (either a structured opinion — always validated
at construction — or a raised exception's message). -/
def renderOpinionPipeline (judge : Judge) (criterionId : String)
    (evidences : EvidenceDict)
    (invokeResult : Except String StructuredOpinion) :
    Except String JudicialOpinion :=
  match invokeResult with
  | .error e => .error e
  | .ok response =>
    match groundOpinion response criterionId evidences with
    | .error e => .error e
    | .ok grounded =>
      mkJudicialOpinion judge criterionId grounded.score grounded.argument
        grounded.cited_evidence

/-- `BaseJudge.render_opinion` (lines 190-229): on success, the
no-verified-evidence cap (lines 207-211) applies; any exception inside
the `try` block is caught and converted into the neutral fallback
opinion. -/
def renderOpinion (judge : Judge) (criterionId : String)
    (evidences : EvidenceDict)
    (invokeResult : Except String StructuredOpinion) : JudicialOpinion :=
  match renderOpinionPipeline judge criterionId evidences invokeResult with
  | .ok opinion =>
    if opinion.cited_evidence.isEmpty
        || opinion.cited_evidence == [("insufficient_verified_evidence")] then
      { opinion with
          score := min opinion.score 2,
          argument := opinion.argument ++ " No verified evidence; score capped." }
    else opinion
  | .error e =>
    ⟨judge, criterionId, 3,
      "Failed to evaluate due to error: " ++ e
        ++ ". Defaulting to neutral score.",
      [("error")], none⟩

/-- Decidable equality for `Except`, needed to evaluate concrete pipeline
results inside proofs. -/
def exceptDecEq {ε α : Type} [DecidableEq ε] [DecidableEq α] :
    DecidableEq (Except ε α) := fun a b =>
  match a, b with
  | .ok x, .ok y =>
    if h : x = y then isTrue (by rw [h])
    else isFalse (by intro hc; cases hc; exact h rfl)
  | .error x, .error y =>
    if h : x = y then isTrue (by rw [h])
    else isFalse (by intro hc; cases hc; exact h rfl)
  | .ok _, .error _ => isFalse (by intro hc; cases hc)
  | .error _, .ok _ => isFalse (by intro hc; cases hc)

instance {ε α : Type} [DecidableEq ε] [DecidableEq α] :
    DecidableEq (Except ε α) :=
  exceptDecEq

/-! ### Concrete instances used by the counterexamples and witnesses -/

/-- A single found evidence item at `src/x.py`. -/
def sampleEvidence : Evidence :=
  ⟨true, none, "src/x.py", 1, "RepoInvestigator", none⟩

/-- An evidence pool holding only `sampleEvidence`. -/
def sampleEvidences : EvidenceDict :=
  [(("RepoInvestigator" : String), [sampleEvidence])]

/-- A 100-character argument consisting of one high-risk, unanchored
sentence (it contains `never`, `always`, `all`, `no evidence`), so the
grounding filter prunes everything. -/
def riskyArgument : String :=
  "This code never works and always fails in all cases with no evidence of testing whatsoever anywhere."

/-- A structured opinion citing real evidence but arguing only through
the high-risk sentence above. -/
def riskyOpinion : StructuredOpinion :=
  ⟨"c1", 4, riskyArgument, ["src/x.py"]⟩

/-- A valid structured opinion whose only citation is the sentinel, for
exercising the no-verified-evidence cap. -/
def sentinelCitedOpinion : StructuredOpinion :=
  ⟨"c1", 4, riskyArgument, ["insufficient_verified_evidence"]⟩

/-- A node that validates a repository URL from a disallowed domain, as
`RepoInvestigator` does before cloning. -/
def disallowedDomainNode : Unit → Except PyExc StateUpdate := fun _ =>
  match validateGitUrl ("https") ("evil.com") ("https://evil.com/repo.git")
      with
  | .ok _ => .ok {}
  | .error e => .error e

/-- Provider stub failing twice with a rate-limit error, then
succeeding. -/
def twoRateLimitFailures : ℕ → Except String ℕ := fun n =>
  if n < 2 then .error ("429 Too Many Requests") else .ok 42

/-- A second evidence item, produced by a different detective. -/
def sampleEvidence2 : Evidence :=
  ⟨true, none, "docs/report.pdf", 1, "DocAnalyst", none⟩

/-- Three concordant perfect scores, for exercising the missing-artifact
cap. -/
def allFivesOpinions : List JudicialOpinion :=
  [⟨Judge.Prosecutor, "c", 5, "Shows strong craftsmanship throughout.",
      ["e1"], none⟩,
    ⟨Judge.Defense, "c", 5, "Excellent and complete.", ["e2"], none⟩,
    ⟨Judge.TechLead, "c", 5, "Works end to end.", ["e3"], none⟩]

/-- Scenario B of the spec: scores 3, 4, 4 with no security language. -/
def scenarioBOpinions : List JudicialOpinion :=
  [⟨Judge.Prosecutor, "c", 3, "Functional but flawed in places.", ["e1"],
      none⟩,
    ⟨Judge.Defense, "c", 4, "Good implementation with minor issues.",
      ["e2"], none⟩,
    ⟨Judge.TechLead, "c", 4, "Solid architecture, runs fine.", ["e3"],
      none⟩]

/-! ### Lookup lemmas for the dict reducer -/

/-- Looking a key up in an appended association list searches the left
part first. -/
theorem lookup_append {α : Type} (l1 l2 : List (String × α)) (k : String) :
    (l1 ++ l2).lookup k = ((l1.lookup k).or (l2.lookup k)) := by
  induction l1 with
  | nil => simp [List.lookup]
  | cons hd tl ih =>
    obtain ⟨k2, v2⟩ := hd
    by_cases hk : k = k2
    · subst hk
      simp [List.lookup]
    · have hbeq : (k == k2) = false := beq_eq_false_iff_ne.mpr hk
      simp [List.lookup, hbeq, ih]

/-- Filters that agree on all entries carrying key `k` give the same
lookup at `k`. -/
theorem lookup_filter_congr {α : Type} (l : List (String × α))
    (p q : String × α → Bool) (k : String)
    (h : ∀ v, p (k, v) = q (k, v)) :
    (l.filter p).lookup k = (l.filter q).lookup k := by
  induction l with
  | nil => simp
  | cons hd tl ih =>
    obtain ⟨k2, v2⟩ := hd
    by_cases hk : k = k2
    · subst hk
      have hpq : p (k, v2) = q (k, v2) := h v2
      cases hq : q (k, v2) with
      | true =>
        have hp : p (k, v2) = true := by rw [hpq, hq]
        simp [List.filter, hp, hq, List.lookup]
      | false =>
        have hp : p (k, v2) = false := by rw [hpq, hq]
        simp [List.filter, hp, hq, ih]
    · have hbeq : (k == k2) = false := beq_eq_false_iff_ne.mpr hk
      cases hp : p (k2, v2) <;> cases hq : q (k2, v2) <;>
        simp [List.filter, hp, hq, List.lookup, hbeq, ih]

/-- Characterization of the dict reducer: a merged lookup prefers the
right operand's value and falls back to the left's. -/
theorem lookup_pyDictMerge {α : Type} (d1 d2 : List (String × α))
    (k : String) :
    (pyDictMerge d1 d2).lookup k = ((d2.lookup k).or (d1.lookup k)) := by
  induction d1 with
  | nil =>
    simp [pyDictMerge, List.lookup]
  | cons hd tl ih =>
    obtain ⟨k1, v1⟩ := hd
    by_cases hk : k = k1
    · subst hk
      cases h2 : d2.lookup k with
      | some v => simp [pyDictMerge, List.lookup, h2]
      | none => simp [pyDictMerge, List.lookup, h2]
    · have hbeq : (k == k1) = false := beq_eq_false_iff_ne.mpr hk
      have hcongr := lookup_filter_congr d2
        (fun kv => (List.lookup kv.1 ((k1, v1) :: tl)).isNone)
        (fun kv => (List.lookup kv.1 tl).isNone) k
        (fun v => by simp [List.lookup, hbeq])
      simp only [pyDictMerge] at ih ⊢
      rw [lookup_append] at ih ⊢
      rw [hcongr]
      simp only [List.map_cons]
      cases h21 : d2.lookup k1 <;>
        simp only [h21] <;>
        simp [List.lookup, hbeq, ← ih]


/-! ### Claims -/

/-- C9 counterexample: the `Evidence` constructor rejects an out-of-range
confidence instead of clamping it into [0,1] (first two conjuncts), and
it accepts an empty `location`, so an Evidence value with an empty
location exists in spite of the claimed invariant (third conjunct). -/
theorem c9_evidence_not_clamped_counterexample :
    (mkEvidence true none ("src/x.py") 2 ("RepoInvestigator") none).isOk
        = false
    ∧ mkEvidence true none ("src/x.py") 2 ("RepoInvestigator") none
        ≠ Except.ok ⟨true, none, "src/x.py", 1, "RepoInvestigator", none⟩
    ∧ mkEvidence true none ("") 1 ("DocAnalyst") none
        = Except.ok ⟨true, none, "", 1, "DocAnalyst", none⟩ := by
  refine ⟨?_, ?_, ?_⟩ <;> decide

/-- C9 (amended): every `Evidence` the constructor accepts satisfies
`0 ≤ confidence ≤ 1`, because out-of-range values are rejected with a
validation error — not clamped — and the accepted value keeps its
confidence and location verbatim; the location is not validated and may
be empty. -/
theorem c9_evidence_constructor_characterization (found : Bool)
    (content : Option String) (location : String) (confidence : ℚ)
    (detectiveName : String) (timestamp : Option String) :
    ((mkEvidence found content location confidence detectiveName
        timestamp).isOk = true ↔ (0 ≤ confidence ∧ confidence ≤ 1))
    ∧ (∀ e, mkEvidence found content location confidence detectiveName
          timestamp = .ok e →
        e.confidence = confidence ∧ e.location = location
          ∧ 0 ≤ e.confidence ∧ e.confidence ≤ 1) := by
  unfold mkEvidence
  by_cases h : 0 ≤ confidence ∧ confidence ≤ 1
  · refine ⟨by simp [h, Except.isOk, Except.toBool], ?_⟩
    intro e he
    simp only [if_pos h] at he
    cases he
    exact ⟨rfl, rfl, h.1, h.2⟩
  · refine ⟨by simp [h, Except.isOk, Except.toBool], ?_⟩
    intro e he
    simp only [if_neg h] at he
    cases he

/-- C9 witness: the characterization applied to a concrete accepted
evidence value. -/
theorem c9_evidence_constructor_characterization_witness :
    (⟨true, none, "loc", 1, "DocAnalyst", none⟩ : Evidence).confidence = 1
    ∧ (⟨true, none, "loc", 1, "DocAnalyst", none⟩ : Evidence).location
        = "loc"
    ∧ (0 : ℚ) ≤ (⟨true, none, "loc", 1, "DocAnalyst", none⟩ :
        Evidence).confidence
    ∧ (⟨true, none, "loc", 1, "DocAnalyst", none⟩ :
        Evidence).confidence ≤ 1 :=
  (c9_evidence_constructor_characterization true none ("loc") 1
    ("DocAnalyst") none).2
    ⟨true, none, "loc", 1, "DocAnalyst", none⟩ (by decide)

/-- C8 counterexample: a node that raises the security violation for a
disallowed clone domain is *not* re-raised by `_safe_node` in resilient
mode (`AUDITOR_FAIL_FAST=false`): the wrapper converts it into an
errors-list entry with the node's empty update, contradicting the claim
that fatal/security errors always propagate regardless of mode. -/
theorem c8_safe_node_swallows_security_error :
    disallowedDomainNode () = Except.error (PyExc.securityViolationError
      ("Domain 'evil.com' not in allowed list: ['github.com', 'gitlab.com', 'bitbucket.org']"))
    ∧ (PyExc.securityViolationError
        ("Domain 'evil.com' not in allowed list: ['github.com', 'gitlab.com', 'bitbucket.org']")).isSecurityViolation
        = true
    ∧ safeNode false disallowedDomainNode ("RepoInvestigator") {} ()
        = Except.ok { errors := [("RepoInvestigator: Domain 'evil.com' not in allowed list: ['github.com', 'gitlab.com', 'bitbucket.org']")] } := by
  refine ⟨?_, ?_, ?_⟩ <;> decide

/-- C8 (amended): in fail-fast mode (the default) every node exception,
security violations included, re-raises and aborts the run; in resilient
mode `_safe_node` catches every exception — security violations
included — and converts it into the node's empty update plus an
`"<node>: <message>"` errors entry. -/
theorem c8_safe_node_policy (σ : Type)
    (nodeFn : σ → Except PyExc StateUpdate) (nodeName : String)
    (emptyUpdates : StateUpdate) (state : σ) (exc : PyExc)
    (h : nodeFn state = .error exc) :
    safeNode true nodeFn nodeName emptyUpdates state = .error exc
    ∧ safeNode false nodeFn nodeName emptyUpdates state
        = .ok { emptyUpdates with
                 errors := [nodeName ++ ": " ++ exc.message] } := by
  unfold safeNode
  rw [h]
  exact ⟨rfl, rfl⟩

/-- C8 witness: the policy behavior applied to a concrete failing node. -/
theorem c8_safe_node_policy_witness :
    safeNode true
        (fun _ : Unit => Except.error (PyExc.pathTraversalError ("escape")))
        ("DocAnalyst") {} () = Except.error (.pathTraversalError ("escape"))
    ∧ safeNode false
        (fun _ : Unit => Except.error (PyExc.pathTraversalError ("escape")))
        ("DocAnalyst") {} ()
        = Except.ok { errors := [("DocAnalyst" ++ ": "
            ++ (PyExc.pathTraversalError ("escape")).message)] } :=
  c8_safe_node_policy Unit
    (fun _ => Except.error (PyExc.pathTraversalError ("escape")))
    ("DocAnalyst") {} () (PyExc.pathTraversalError ("escape")) rfl

/-- C7: `render_opinion` never raises — the embedding is a total
function — and on any failure inside the provider/grounding pipeline it
returns the neutral fallback opinion: score 3, an argument naming the
reason, and `cited_evidence = ["error"]`. -/
theorem c7_render_opinion_neutral_fallback (judge : Judge)
    (criterionId : String) (evidences : EvidenceDict) (e : String) :
    renderOpinion judge criterionId evidences (.error e)
      = ⟨judge, criterionId, 3,
          "Failed to evaluate due to error: " ++ e
            ++ ". Defaulting to neutral score.",
          [("error")], none⟩ := rfl

/-- C10: whenever the grounded opinion's citations are empty or exactly
the sentinel list, `render_opinion` caps the score at `min(score, 2)`
and appends the no-verified-evidence disclosure to the argument. -/
theorem c10_no_verified_evidence_cap (judge : Judge) (criterionId : String)
    (evidences : EvidenceDict)
    (invokeResult : Except String StructuredOpinion) (op : JudicialOpinion)
    (h : renderOpinionPipeline judge criterionId evidences invokeResult
        = .ok op)
    (hc : op.cited_evidence = []
        ∨ op.cited_evidence = [("insufficient_verified_evidence")]) :
    renderOpinion judge criterionId evidences invokeResult
      = { op with
            score := min op.score 2,
            argument := op.argument ++ " No verified evidence; score capped." } := by
  unfold renderOpinion
  rw [h]
  rcases hc with hc | hc <;> simp [hc]

/-- C10 witness: the cap applied to a concrete opinion whose only
citation is the sentinel. -/
theorem c10_no_verified_evidence_cap_witness :
    renderOpinion Judge.Prosecutor ("c1") [] (.ok sentinelCitedOpinion)
      = { (⟨Judge.Prosecutor, "c1", 4, riskyArgument,
            [("insufficient_verified_evidence")], none⟩ : JudicialOpinion)
          with
            score := min 4 2,
            argument := riskyArgument
              ++ " No verified evidence; score capped." } :=
  c10_no_verified_evidence_cap Judge.Prosecutor ("c1") []
    (.ok sentinelCitedOpinion)
    ⟨Judge.Prosecutor, "c1", 4, riskyArgument,
      [("insufficient_verified_evidence")], none⟩
    (by decide) (Or.inr rfl)

/-- C6 counterexample: the claimed jitter distribution `uniform(0,
0.25*delay)` is wrong — the code draws from `uniform(0, min(0.5,
0.25*delay))`.  With base delay 1s and max delay 8s (the configured
defaults) and a rate-limited provider, the third sleep uses delay 4 and
jitter bound 1/2, not the claimed 0.25*4 = 1. -/
theorem c6_retry_jitter_cap_counterexample :
    invokeWithRateLimitRetry
        (fun n => if n < 3 then Except.error ("429 Too Many Requests")
          else Except.ok (0 : ℕ)) 5 defaultRetryBaseDelay
        defaultRetryMaxDelay
      = Except.ok (0, 3,
          [(retryDelay 1 8 0, retryJitterBound 1 8 0),
            (retryDelay 1 8 1, retryJitterBound 1 8 1),
            (retryDelay 1 8 2, retryJitterBound 1 8 2)])
    ∧ retryDelay 1 8 2 = 4
    ∧ retryJitterBound 1 8 2 = 1/2
    ∧ retryJitterBound 1 8 2 ≠ 0.25 * retryDelay 1 8 2 := by
  refine ⟨?_, ?_, ?_, ?_⟩
  · simp [invokeWithRateLimitRetry, retryLoopGo, isRateLimitErrorMsg,
      strContainsB, containsSub, defaultRetryBaseDelay, defaultRetryMaxDelay]
  · norm_num [retryDelay, min_def]
  · norm_num [retryJitterBound, retryDelay, min_def]
  · norm_num [retryJitterBound, retryDelay, min_def]

/-- C6 (amended): the loop retries only errors whose message is
classified as a rate limit, sleeping before retry `k`+1 a duration
`delay + jitter` with `delay = min(max_delay, base*2^k)` and jitter
drawn uniformly from `[0, min(0.5, 0.25*delay)]`; errors not classified
as rate limits (validation and malformed-output errors among them)
re-raise immediately with no retry; and a provider failing twice with a
rate-limit error then succeeding yields the successful result after
exactly 2 retries under the default attempt budget of 3. -/
theorem c6_retry_loop_behavior (α : Type) (invoke : ℕ → Except String α)
    (baseDelay maxDelay : ℚ) (v : α) (m0 m1 : String)
    (h0 : invoke 0 = .error m0) (h0r : isRateLimitErrorMsg m0 = true)
    (h1 : invoke 1 = .error m1) (h1r : isRateLimitErrorMsg m1 = true)
    (h2 : invoke 2 = .ok v) :
    invokeWithRateLimitRetry invoke defaultMaxRetries baseDelay maxDelay
      = .ok (v, 2,
          [(retryDelay baseDelay maxDelay 0,
              retryJitterBound baseDelay maxDelay 0),
            (retryDelay baseDelay maxDelay 1,
              retryJitterBound baseDelay maxDelay 1)])
    ∧ (∀ (g : ℕ → Except String α) (e : String), g 0 = .error e →
        isRateLimitErrorMsg e = false →
        invokeWithRateLimitRetry g defaultMaxRetries baseDelay maxDelay
          = .error e)
    ∧ (∀ k, retryJitterBound baseDelay maxDelay k
          ≤ retryDelay baseDelay maxDelay k * 0.25
        ∧ retryJitterBound baseDelay maxDelay k ≤ 1/2) := by
  refine ⟨?_, ?_, ?_⟩
  · simp [invokeWithRateLimitRetry, defaultMaxRetries, retryLoopGo, h0,
      h0r, h1, h1r, h2]
  · intro g e hg he
    simp [invokeWithRateLimitRetry, defaultMaxRetries, retryLoopGo, hg, he]
  · intro k
    exact ⟨min_le_right _ _, min_le_left _ _⟩

/-- C6 witness: the amended behavior applied to the concrete
twice-failing provider stub with the default delays. -/
theorem c6_retry_loop_behavior_witness :
    invokeWithRateLimitRetry twoRateLimitFailures defaultMaxRetries
        defaultRetryBaseDelay defaultRetryMaxDelay
      = .ok (42, 2,
          [(retryDelay defaultRetryBaseDelay defaultRetryMaxDelay 0,
              retryJitterBound defaultRetryBaseDelay defaultRetryMaxDelay 0),
            (retryDelay defaultRetryBaseDelay defaultRetryMaxDelay 1,
              retryJitterBound defaultRetryBaseDelay defaultRetryMaxDelay 1)]) :=
  (c6_retry_loop_behavior ℕ twoRateLimitFailures defaultRetryBaseDelay
    defaultRetryMaxDelay 42 ("429 Too Many Requests")
    ("429 Too Many Requests") rfl (by decide) rfl (by decide) rfl).1

/-- C3 counterexample: when the same producer key appears in both
partial updates, the `operator.ior` reducer *replaces* the left list by
the right one rather than concatenating them. -/
theorem c3_merge_same_key_replaces_counterexample :
    (pyDictMerge [(("RepoInvestigator" : String), [sampleEvidence])]
        [(("RepoInvestigator" : String), [sampleEvidence2])]).lookup
        ("RepoInvestigator")
      = some [sampleEvidence2]
    ∧ (pyDictMerge [(("RepoInvestigator" : String), [sampleEvidence])]
        [(("RepoInvestigator" : String), [sampleEvidence2])]).lookup
        ("RepoInvestigator")
      ≠ some [sampleEvidence, sampleEvidence2] := by
  refine ⟨?_, ?_⟩ <;> decide

/-- C3 (amended): the `evidences` reducer is a key union whose per-key
value is the right operand's list when present (replacement, not
concatenation), so merging updates with disjoint producer keys is
order-independent as a mapping. -/
theorem c3_evidences_merge_characterization (d1 d2 : EvidenceDict) :
    (∀ k, (pyDictMerge d1 d2).lookup k
        = ((d2.lookup k).or (d1.lookup k)))
    ∧ ((∀ k, ¬((d1.lookup k).isSome ∧ (d2.lookup k).isSome)) →
        ∀ k, (pyDictMerge d1 d2).lookup k = (pyDictMerge d2 d1).lookup k) := by
  refine ⟨fun k => lookup_pyDictMerge d1 d2 k, ?_⟩
  intro hdisj k
  rw [lookup_pyDictMerge, lookup_pyDictMerge]
  cases h1 : d1.lookup k with
  | none => cases h2 : d2.lookup k <;> simp [Option.or]
  | some v1 =>
    cases h2 : d2.lookup k with
    | none => simp [Option.or]
    | some v2 =>
      exact absurd ⟨by rw [h1]; rfl, by rw [h2]; rfl⟩ (hdisj k)

/-- C3 witness: the characterization applied to two concrete
disjoint-key updates. -/
theorem c3_evidences_merge_characterization_witness :
    (pyDictMerge [(("RepoInvestigator" : String), [sampleEvidence])]
        [(("DocAnalyst" : String), [sampleEvidence2])]).lookup
        ("RepoInvestigator")
      = ((([(("DocAnalyst" : String), [sampleEvidence2])] :
            EvidenceDict).lookup ("RepoInvestigator")).or
          (([(("RepoInvestigator" : String), [sampleEvidence])] :
            EvidenceDict).lookup ("RepoInvestigator")))
    ∧ (pyDictMerge [(("RepoInvestigator" : String), [sampleEvidence])]
        [(("DocAnalyst" : String), [sampleEvidence2])]).lookup ("DocAnalyst")
      = (pyDictMerge [(("DocAnalyst" : String), [sampleEvidence2])]
          [(("RepoInvestigator" : String), [sampleEvidence])]).lookup
          ("DocAnalyst") := by
  have h := c3_evidences_merge_characterization
    [(("RepoInvestigator" : String), [sampleEvidence])]
    [(("DocAnalyst" : String), [sampleEvidence2])]
  refine ⟨h.1 ("RepoInvestigator"), h.2 ?_ ("DocAnalyst")⟩
  intro k hks
  by_cases hk : k = "RepoInvestigator"
  · subst hk
    revert hks
    decide
  · have : (([(("RepoInvestigator" : String), [sampleEvidence])] :
        EvidenceDict).lookup k).isSome = false := by
      simp [List.lookup, beq_eq_false_iff_ne.mpr hk]
    rw [this] at hks
    exact Bool.noConfusion (hks.1)

/-- Evaluation rule for `pythonRound` once the floor is pinned down. -/
theorem pythonRound_eq_of_floor (q : ℚ) (n : ℤ) (h1 : (n : ℚ) ≤ q)
    (h2 : q < n + 1) :
    pythonRound q =
      if q - n < 1/2 then n
      else if 1/2 < q - n then n + 1
      else if n % 2 = 0 then n else n + 1 := by
  have hf : ⌊q⌋ = n := Int.floor_eq_iff.mpr ⟨h1, h2⟩
  simp [pythonRound, hf]

/-- C1: whenever the first Prosecutor opinion scores 1 and mentions
`security` (case-insensitively) in its argument, `_resolve_criterion`
returns exactly 3 — hence at most 3 — with the security-override
explanation, whatever the other judges said and whatever
`synthesis_rules` contains. -/
theorem c1_security_override (criterionId : String)
    (opinions : List JudicialOpinion)
    (synthesisRules : List (String × String)) (missingArtifact : Bool)
    (o : JudicialOpinion)
    (hfind : opinions.find? (fun o => o.judge == Judge.Prosecutor) = some o)
    (hscore : o.score = 1)
    (hsec : strContainsB (pyLower o.argument) ("security") = true) :
    resolveCriterion criterionId opinions synthesisRules missingArtifact
      = (3, criterionId
          ++ ": Security flaw detected by Prosecutor. Score capped at 3 per synthesis rules.") := by
  have hemp : opinions.isEmpty = false := by
    cases opinions with
    | nil => simp at hfind
    | cons _ _ => rfl
  have hfires : securityOverrideFires opinions = true := by
    simp [securityOverrideFires, hfind, hscore, hsec]
  have hp : ((opinions.find? (fun o => o.judge == Judge.Prosecutor)).map
      (fun o => o.score)).getD 3 = 1 := by
    simp [hfind, hscore]
  unfold resolveCriterion
  simp only [hemp, Bool.false_eq_true, if_false, hfires, if_true, hp]
  norm_num

/-- C1 witness: the override applied to a concrete docket where the
Prosecutor scores 1 over a security hole and the others disagree. -/
theorem c1_security_override_witness :
    resolveCriterion ("code_quality")
        [⟨Judge.Prosecutor, "code_quality", 1,
            "Glaring security hole in the clone step.", ["e1"], none⟩,
          ⟨Judge.Defense, "code_quality", 5, "Fine work overall.", ["e2"],
            none⟩,
          ⟨Judge.TechLead, "code_quality", 3, "It does run.", ["e3"], none⟩]
        [(("security_override" : String), ("true" : String))] false
      = (3, ("code_quality")
          ++ ": Security flaw detected by Prosecutor. Score capped at 3 per synthesis rules.") :=
  c1_security_override ("code_quality") _ _ false
    ⟨Judge.Prosecutor, "code_quality", 1,
      "Glaring security hole in the clone step.", ["e1"], none⟩
    (by decide) rfl (by decide)

/-- C2 counterexample: with a missing target artifact and the
`missing_vision_cap` rule set, three concordant 5s resolve to 4, not to
the claimed `round(0.25*5 + 0.25*5 + 0.5*5) = 5` clamped to [1,5]: the
claim omits the missing-artifact caps of lines 156-213 of the
synthesis engine. -/
theorem c2_missing_artifact_cap_counterexample :
    (resolveCriterion ("c") allFivesOpinions
        [(("missing_vision_cap" : String), ("true" : String))] true).1 = 4
    ∧ max 1 (min 5 (pythonRound
        ((5 : ℚ) * 0.25 + (5 : ℚ) * 0.25 + (5 : ℚ) * 0.5))) = 5
    ∧ (4 : ℤ) ≠ 5 := by
  have hpr : pythonRound ((5 : ℚ) * 0.25 + (5 : ℚ) * 0.25 + (5 : ℚ) * 0.5)
      = 5 := by
    rw [pythonRound_eq_of_floor ((5 : ℚ) * 0.25 + (5 : ℚ) * 0.25
      + (5 : ℚ) * 0.5) 5 (by norm_num) (by norm_num)]
    norm_num
  refine ⟨?_, by rw [hpr]; norm_num [min_def, max_def], by norm_num⟩
  have hso : securityOverrideFires allFivesOpinions = false := by decide
  have hie : allFivesOpinions.isEmpty = false := rfl
  have hfp : allFivesOpinions.find? (fun o => o.judge == Judge.Prosecutor)
      = some ⟨Judge.Prosecutor, "c", 5,
          "Shows strong craftsmanship throughout.", ["e1"], none⟩ := rfl
  have hfd : allFivesOpinions.find? (fun o => o.judge == Judge.Defense)
      = some ⟨Judge.Defense, "c", 5, "Excellent and complete.", ["e2"],
          none⟩ := rfl
  have hft : allFivesOpinions.find? (fun o => o.judge == Judge.TechLead)
      = some ⟨Judge.TechLead, "c", 5, "Works end to end.", ["e3"],
          none⟩ := rfl
  have hpr5 : pythonRound (5 : ℚ) = 5 := by
    rw [pythonRound_eq_of_floor (5 : ℚ) 5 (by norm_num) (by norm_num)]
    norm_num
  unfold resolveCriterion
  rw [hie, hso]
  norm_num [hfp, hfd, hft, truthyRule, List.lookup, hpr, hpr5, min_def,
    max_def, show ¬(("true" : String) = "") from by decide]

/-- C2 (amended): when the security override does not fire and the
missing-artifact policy caps are inactive (the `missing_artifact`
argument is false), the final score is exactly the claimed formula: under
sharp disagreement (`max - min > 2`) the 0.4/0.2/0.4 conservative blend,
capped at 3 when the Prosecutor scored at most 2; otherwise the
0.25/0.25/0.5 Tech-Lead-weighted round; clamped into [1,5] (scores
default to 3 when a judge's opinion is absent).  When the artifact is
missing the code applies further caps the claim does not mention. -/
theorem c2_resolve_weighted_formula (criterionId : String)
    (opinions : List JudicialOpinion)
    (synthesisRules : List (String × String))
    (hsec : securityOverrideFires opinions = false) :
    (resolveCriterion criterionId opinions synthesisRules false).1
      = (let p : ℤ := ((opinions.find? (fun o =>
            o.judge == Judge.Prosecutor)).map (fun o => o.score)).getD 3
         let d : ℤ := ((opinions.find? (fun o =>
            o.judge == Judge.Defense)).map (fun o => o.score)).getD 3
         let t : ℤ := ((opinions.find? (fun o =>
            o.judge == Judge.TechLead)).map (fun o => o.score)).getD 3
         max 1 (min 5
          (if max p (max d t) - min p (min d t) > 2 then
            if p ≤ 2 then
              min (pythonRound ((p : ℚ) * 0.4 + (d : ℚ) * 0.2
                + (t : ℚ) * 0.4)) 3
            else
              pythonRound ((p : ℚ) * 0.4 + (d : ℚ) * 0.2 + (t : ℚ) * 0.4)
           else
            pythonRound ((p : ℚ) * 0.25 + (d : ℚ) * 0.25
              + (t : ℚ) * 0.5)))) := by
  cases hemp : opinions.isEmpty with
  | true =>
    have hnil : opinions = [] := by
      cases opinions with
      | nil => rfl
      | cons _ _ => simp [List.isEmpty] at hemp
    subst hnil
    have hpr3 : pythonRound (((3 : ℤ) : ℚ) * 0.25 + ((3 : ℤ) : ℚ) * 0.25
        + ((3 : ℤ) : ℚ) * 0.5) = 3 := by
      rw [pythonRound_eq_of_floor (((3 : ℤ) : ℚ) * 0.25
        + ((3 : ℤ) : ℚ) * 0.25 + ((3 : ℤ) : ℚ) * 0.5) 3 (by norm_num)
        (by norm_num)]
      norm_num
    have hpc : pythonRound (3 : ℚ) = 3 := by
      rw [pythonRound_eq_of_floor (3 : ℚ) 3 (by norm_num) (by norm_num)]
      norm_num
    unfold resolveCriterion
    norm_num [List.isEmpty, hpr3, hpc, min_def, max_def]
  | false =>
    unfold resolveCriterion
    simp only [hemp, Bool.false_eq_true, if_false, hsec,
      Bool.false_and, Bool.and_false]
    simp only [apply_ite (fun pr : ℤ × String => pr.1)]

/-- C2 witness: scenario B of the spec — scores 3, 4, 4 and no security
language — yields `round(0.25*3 + 0.25*4 + 0.5*4) = 4`. -/
theorem c2_resolve_weighted_formula_witness :
    securityOverrideFires scenarioBOpinions = false
    ∧ (resolveCriterion ("c") scenarioBOpinions [] false).1 = 4 := by
  have hso : securityOverrideFires scenarioBOpinions = false := by decide
  refine ⟨hso, ?_⟩
  rw [c2_resolve_weighted_formula ("c") scenarioBOpinions [] hso]
  have hfp : scenarioBOpinions.find? (fun o => o.judge == Judge.Prosecutor)
      = some ⟨Judge.Prosecutor, "c", 3, "Functional but flawed in places.",
          ["e1"], none⟩ := rfl
  have hfd : scenarioBOpinions.find? (fun o => o.judge == Judge.Defense)
      = some ⟨Judge.Defense, "c", 4,
          "Good implementation with minor issues.", ["e2"], none⟩ := rfl
  have hft : scenarioBOpinions.find? (fun o => o.judge == Judge.TechLead)
      = some ⟨Judge.TechLead, "c", 4, "Solid architecture, runs fine.",
          ["e3"], none⟩ := rfl
  have hpr : pythonRound ((15 : ℚ)/4) = 4 := by
    rw [pythonRound_eq_of_floor ((15 : ℚ)/4) 3 (by norm_num) (by norm_num)]
    norm_num
  norm_num [hfp, hfd, hft, hpr, min_def, max_def]

set_option maxRecDepth 10000

/-- C5 counterexample: grounding is not idempotent.  For an opinion whose
only sentence is high-risk and unanchored, the first pass substitutes the
fallback sentence `Opinion retained only where verifiable evidence
exists.` and deducts one penalty (score 4 to 3); the second pass prunes
that very fallback sentence again — it contains the high-risk word
`only` — and deducts another penalty (score 3 to 2), so
`ground(ground(r, E), E) differs from ground(r, E)`. -/
theorem c5_ground_opinion_not_idempotent_counterexample :
    (groundOpinion riskyOpinion ("c1") sampleEvidences).toOption.map
        (fun s => s.score) = some 3
    ∧ ((groundOpinion riskyOpinion ("c1") sampleEvidences).toOption.bind
        (fun s => (groundOpinion s ("c1") sampleEvidences).toOption)).map
        (fun s => s.score) = some 2
    ∧ ((groundOpinion riskyOpinion ("c1") sampleEvidences).toOption.bind
        (fun s => (groundOpinion s ("c1") sampleEvidences).toOption))
      ≠ (groundOpinion riskyOpinion ("c1") sampleEvidences).toOption := by
  refine ⟨?_, ?_, ?_⟩ <;> decide

/-- C5 (amended): the grounding filter is idempotent when the evidence
pool yields no known locations — it returns its input with only the
criterion id set, and a second application returns the same value.  With
a non-empty location set a second pass can prune the fallback/disclosure
sentences again and deduct further penalties (see the counterexample), so
idempotence fails in general. -/
theorem c5_ground_opinion_idempotent_no_locations (r : StructuredOpinion)
    (criterionId : String) (evidences : EvidenceDict)
    (h : collectAllowedLocations evidences = []) :
    groundOpinion r criterionId evidences
      = .ok { r with criterion_id := criterionId }
    ∧ groundOpinion { r with criterion_id := criterionId } criterionId
        evidences
      = .ok { r with criterion_id := criterionId } := by
  constructor <;> simp [groundOpinion, h]

/-- C5 witness: the empty-locations idempotence at a concrete opinion. -/
theorem c5_ground_opinion_idempotent_no_locations_witness :
    groundOpinion riskyOpinion ("c2") []
      = .ok { riskyOpinion with criterion_id := "c2" }
    ∧ groundOpinion { riskyOpinion with criterion_id := "c2" } ("c2") []
      = .ok { riskyOpinion with criterion_id := "c2" } :=
  c5_ground_opinion_idempotent_no_locations riskyOpinion ("c2") [] rfl

/-- Inversion of the checked `StructuredOpinion` construction: success
pins down the value and yields the pydantic bounds. -/
theorem mkStructuredOpinion_ok (criterionId : String) (score : ℤ)
    (argument : String) (cited : List String) (s : StructuredOpinion)
    (h : mkStructuredOpinion criterionId score argument cited = .ok s) :
    s = ⟨criterionId, score, argument, cited⟩
      ∧ 1 ≤ score ∧ score ≤ 5 ∧ 100 ≤ argument.length := by
  unfold mkStructuredOpinion at h
  by_cases h1 : score < 1 ∨ 5 < score
  · rw [if_pos h1] at h
    cases h
  · rw [if_neg h1] at h
    by_cases h2 : argument.length < 100
    · rw [if_pos h2] at h
      cases h
    · rw [if_neg h2] at h
      cases h
      push_neg at h1 h2
      exact ⟨rfl, h1.1, h1.2, h2⟩

/-- The coercion cascade always emits a valid structured opinion: either
the payload passed pydantic validation, or the deterministic malformed
fallback (whose padded argument is long enough) replaced it; the guard
rails then keep the score in range and the citations non-empty. -/
theorem coerceStructuredResponse_valid (criterionId : String)
    (payload : ResponsePayload) :
    (coerceStructuredResponse criterionId payload).Valid := by
  unfold coerceStructuredResponse
  cases hmk : mkStructuredOpinion payload.criterion_id payload.score
      payload.argument payload.cited_evidence with
  | ok s =>
    obtain ⟨hs, h1, h2, h3⟩ := mkStructuredOpinion_ok _ _ _ _ _ hmk
    subst hs
    dsimp only
    unfold StructuredOpinion.Valid
    split_ifs with hA hB hC <;>
      simp_all [String.length_append]
    all_goals omega
  | error e =>
    dsimp only
    unfold StructuredOpinion.Valid
    have hlen : 100 ≤ malformedFallbackArgument.length := by decide
    split_ifs with hA hB hC <;> simp_all [String.length_append]
    all_goals omega

/-- `_fallback_citations` never returns an empty list: when no evidence
location survives, the sentinel citation is substituted. -/
theorem fallbackCitations_ne_nil (evidences : EvidenceDict) :
    fallbackCitations evidences ≠ [] := by
  unfold fallbackCitations
  dsimp only
  split
  · simp
  · rename_i h
    intro hc
    rw [hc] at h
    simp at h

/-- The main grounding body always ends in a checked construction whose
citations are the filtered list or the fallback citations. -/
theorem groundOpinionMain_shape (response : StructuredOpinion)
    (criterionId : String) (evidences : EvidenceDict)
    (allowedLocations : List String) :
    ∃ sc ar, groundOpinionMain response criterionId evidences
        allowedLocations
      = mkStructuredOpinion criterionId sc ar
          (if (response.cited_evidence.filter (fun c =>
                isCitationVerified c allowedLocations)).isEmpty then
            fallbackCitations evidences
           else
            response.cited_evidence.filter (fun c =>
              isCitationVerified c allowedLocations)) :=
  ⟨_, _, rfl⟩

/-- Grounding preserves validity: a successful grounding of a valid
structured opinion is valid (the early return passes the input through;
the main path re-validates and never produces empty citations). -/
theorem groundOpinion_ok_valid (r : StructuredOpinion)
    (criterionId : String) (evidences : EvidenceDict)
    (s : StructuredOpinion) (hr : r.Valid)
    (h : groundOpinion r criterionId evidences = .ok s) : s.Valid := by
  unfold groundOpinion at h
  by_cases hall : (collectAllowedLocations evidences).isEmpty
  · rw [if_pos hall] at h
    cases h
    obtain ⟨h1, h2, h3, h4⟩ := hr
    exact ⟨h1, h2, h3, h4⟩
  · rw [if_neg hall] at h
    obtain ⟨sc, ar, heq⟩ := groundOpinionMain_shape r criterionId evidences
      (collectAllowedLocations evidences)
    rw [heq] at h
    obtain ⟨hs, hsc1, hsc2, harg⟩ := mkStructuredOpinion_ok _ _ _ _ _ h
    subst hs
    refine ⟨hsc1, hsc2, harg, ?_⟩
    dsimp only
    split
    · exact fallbackCitations_ne_nil evidences
    · rename_i hf
      intro hc
      rw [hc] at hf
      simp at hf

/-- C4 counterexample: on the exception-fallback path the returned
opinion's argument is `Failed to evaluate due to error: boom. Defaulting
to neutral score.` — 67 characters, violating the claimed 100-character
minimum (score and citations still satisfy their invariants). -/
theorem c4_fallback_argument_short_counterexample :
    (renderOpinion Judge.Prosecutor ("c1") sampleEvidences
        (.error ("boom"))).argument.length = 67
    ∧ (renderOpinion Judge.Prosecutor ("c1") sampleEvidences
        (.error ("boom"))).argument.length < 100
    ∧ (renderOpinion Judge.Prosecutor ("c1") sampleEvidences
        (.error ("boom"))).score = 3
    ∧ (renderOpinion Judge.Prosecutor ("c1") sampleEvidences
        (.error ("boom"))).cited_evidence = [("error")] := by
  refine ⟨?_, ?_, ?_, ?_⟩ <;> decide

/-- C4 (amended): every opinion returned by `render_opinion` satisfies
`1 ≤ score ≤ 5` and non-empty `cited_evidence`; the 100-character
argument minimum additionally holds on every non-exception path (any
run where the invoke/ground/convert pipeline returns `ok`), but not on
the exception-fallback path, whose argument is the fixed reason string.
The hypothesis — every structured opinion the provider stage returns is
valid — is discharged for the coercion cascade by
`coerceStructuredResponse_valid`. -/
theorem c4_render_opinion_invariants (judge : Judge) (criterionId : String)
    (evidences : EvidenceDict)
    (invokeResult : Except String StructuredOpinion)
    (hv : ∀ r, invokeResult = .ok r → r.Valid) :
    (1 ≤ (renderOpinion judge criterionId evidences invokeResult).score
      ∧ (renderOpinion judge criterionId evidences invokeResult).score ≤ 5
      ∧ (renderOpinion judge criterionId evidences
          invokeResult).cited_evidence ≠ [])
    ∧ (∀ op, renderOpinionPipeline judge criterionId evidences invokeResult
          = .ok op →
        100 ≤ (renderOpinion judge criterionId evidences
            invokeResult).argument.length) := by
  cases invokeResult with
  | error e =>
    refine ⟨⟨?_, ?_, ?_⟩, ?_⟩
    · show (1 : ℤ) ≤ 3
      norm_num
    · show (3 : ℤ) ≤ 5
      norm_num
    · show [("error" : String)] ≠ []
      simp
    · intro op hop
      simp [renderOpinionPipeline] at hop
  | ok r =>
    have hrv : r.Valid := hv r rfl
    cases hg : groundOpinion r criterionId evidences with
    | error e2 =>
      have hpipe : renderOpinionPipeline judge criterionId evidences (.ok r)
          = .error e2 := by
        simp [renderOpinionPipeline, hg]
      refine ⟨?_, ?_⟩
      · unfold renderOpinion
        rw [hpipe]
        exact ⟨by norm_num, by norm_num, by simp⟩
      · intro op hop
        rw [hpipe] at hop
        cases hop
    | ok s =>
      have hsv := groundOpinion_ok_valid r criterionId evidences s hrv hg
      obtain ⟨hs1, hs2, hs3, hs4⟩ := hsv
      have hmk : mkJudicialOpinion judge criterionId s.score s.argument
          s.cited_evidence
          = .ok ⟨judge, criterionId, s.score, s.argument, s.cited_evidence,
              none⟩ := by
        unfold mkJudicialOpinion
        rw [if_pos ⟨hs1, hs2⟩]
      have hpipe : renderOpinionPipeline judge criterionId evidences (.ok r)
          = .ok ⟨judge, criterionId, s.score, s.argument, s.cited_evidence,
              none⟩ := by
        simp [renderOpinionPipeline, hg, hmk]
      refine ⟨?_, ?_⟩
      · unfold renderOpinion
        rw [hpipe]
        dsimp only
        split
        · exact ⟨le_min hs1 (by norm_num),
            (min_le_right _ _).trans (by norm_num), hs4⟩
        · exact ⟨hs1, hs2, hs4⟩
      · intro op hop
        unfold renderOpinion
        rw [hpipe]
        dsimp only
        split
        · simp only [String.length_append]
          omega
        · exact hs3

/-- C4 witness: the invariants at a concrete valid invoke result. -/
theorem c4_render_opinion_invariants_witness :
    (1 ≤ (renderOpinion Judge.Defense ("c1") sampleEvidences
        (.ok riskyOpinion)).score
      ∧ (renderOpinion Judge.Defense ("c1") sampleEvidences
          (.ok riskyOpinion)).score ≤ 5
      ∧ (renderOpinion Judge.Defense ("c1") sampleEvidences
          (.ok riskyOpinion)).cited_evidence ≠ [])
    ∧ (∀ op, renderOpinionPipeline Judge.Defense ("c1") sampleEvidences
          (.ok riskyOpinion) = .ok op →
        100 ≤ (renderOpinion Judge.Defense ("c1") sampleEvidences
            (.ok riskyOpinion)).argument.length) :=
  c4_render_opinion_invariants Judge.Defense ("c1") sampleEvidences
    (.ok riskyOpinion) (fun r h => by cases h; decide)
